import Mathlib

/-!
Shallow embedding of the Estimote packet parsers
(`parseEstimoteNearablePacket` from the Nearable spec file and
`parseEstimoteTelemetryPacket` from `estimote-telemetry.js`).

A packet buffer is a list of byte values (`List Nat`, each entry `< 256`
for a real buffer).  The Node.js `Buffer.readUInt8` family throws a
`RangeError` when the offset is out of range, and the parsers return
`undefined` (absent) when a discriminator check fails, so a parse has
three possible outcomes, modelled by `DecodeResult`:
out-of-range failure, "not applicable" (absent), or a decoded record.
Real-valued arithmetic (`/ 16.0`, `* 15.625`, `/ 256.0`, ...) is modelled
over `ℚ`; every numeric fact proved below involves only values whose
floating-point computation is exact.
-/

inductive DecodeResult (α : Type) where
  | outOfRange : DecodeResult α
  | notApplicable : DecodeResult α
  | ok : α → DecodeResult α
deriving Repr, DecidableEq

instance : Monad DecodeResult where
  pure := .ok
  bind := fun x f => match x with
    | .outOfRange => .outOfRange
    | .notApplicable => .notApplicable
    | .ok a => f a

/-- Projection used to state facts about one field of a decoded record. -/
def DecodeResult.project (f : α → β) : DecodeResult α → DecodeResult β
  | .outOfRange => .outOfRange
  | .notApplicable => .notApplicable
  | .ok a => .ok (f a)

/-- Models `Buffer.readUInt8(i)`: the byte at offset `i`, range-checked. -/
def readUInt8 (data : List Nat) (i : Nat) : DecodeResult Nat :=
  match data.get? i with
  | some b => .ok b
  | none => .outOfRange

/-- Models `Buffer.readInt8(i)`: signed (two's complement) read of the byte at `i`. -/
def readInt8 (data : List Nat) (i : Nat) : DecodeResult Int :=
  readUInt8 data i >>= fun b =>
  pure (if b > 127 then (b : Int) - 256 else (b : Int))

/-- Models `Buffer.readUInt16LE(i)`: little-endian 16-bit read at offset `i`. -/
def readUInt16LE (data : List Nat) (i : Nat) : DecodeResult Nat :=
  readUInt8 data i >>= fun lo =>
  readUInt8 data (i + 1) >>= fun hi =>
  pure (lo ||| (hi <<< 8))

/-- Models `Buffer.readUInt32LE(i)`: little-endian 32-bit read at offset `i`. -/
def readUInt32LE (data : List Nat) (i : Nat) : DecodeResult Nat :=
  readUInt8 data i >>= fun b0 =>
  readUInt8 data (i + 1) >>= fun b1 =>
  readUInt8 data (i + 2) >>= fun b2 =>
  readUInt8 data (i + 3) >>= fun b3 =>
  pure (b0 ||| (b1 <<< 8) ||| (b2 <<< 16) ||| (b3 <<< 24))

inductive DurationUnit where
  | seconds | minutes | hours | days | weeks
deriving Repr, DecidableEq

structure DurationValue where
  number : Int
  unit : DurationUnit
deriving Repr, DecidableEq

namespace Nearable

/-- The Nearable `parseMotionStateDuration`: lower 6 bits = number,
upper 2 bits = unit; unit code 3 is days while `number < 32`,
otherwise weeks with `number - 32`. -/
def parseMotionStateDuration (byte : Nat) : DurationValue :=
  let number := byte &&& 0b00111111
  let unitCode := (byte &&& 0b11000000) >>> 6
  if unitCode = 0 then ⟨number, .seconds⟩
  else if unitCode = 1 then ⟨number, .minutes⟩
  else if unitCode = 2 then ⟨number, .hours⟩
  else if unitCode = 3 ∧ number < 32 then ⟨number, .days⟩
  else ⟨(number : Int) - 32, .weeks⟩

end Nearable

namespace Telemetry

/-- The Telemetry `parseMotionStateDuration`: identical except that
unit code 3 is days while `number <= 32` (one-value offset vs Nearable). -/
def parseMotionStateDuration (byte : Nat) : DurationValue :=
  let number := byte &&& 0b00111111
  let unitCode := (byte &&& 0b11000000) >>> 6
  if unitCode = 0 then ⟨number, .seconds⟩
  else if unitCode = 1 then ⟨number, .minutes⟩
  else if unitCode = 2 then ⟨number, .hours⟩
  else if unitCode = 3 ∧ number ≤ 32 then ⟨number, .days⟩
  else ⟨(number : Int) - 32, .weeks⟩

end Telemetry

/-- Three-axis reading (acceleration or magnetic field), `{x, y, z}`. -/
structure Axes where
  x : ℚ
  y : ℚ
  z : ℚ
deriving Repr, DecidableEq

/-- Current and previous motion-state durations. -/
structure MotionStateDuration where
  current : DurationValue
  previous : DurationValue
deriving Repr, DecidableEq

structure NearablePacket where
  nearableId : List Nat
  temperature : ℚ
  isMoving : Bool
  motionStateDuration : MotionStateDuration
  acceleration : Axes
deriving Repr, DecidableEq

/-- Embedding of `parseEstimoteNearablePacket` from the Nearable spec file, line by line. -/
def parseEstimoteNearablePacket (data : List Nat) : DecodeResult NearablePacket :=
  readUInt16LE data 0 >>= fun companyId =>
  if companyId ≠ 0x015d then .notApplicable else
  readUInt8 data 2 >>= fun frameType =>
  if frameType ≠ 0x01 then .notApplicable else
  -- `data.toString('hex', 3, 11)`: the identifier bytes (clamping slice)
  let nearableId := (data.drop 3).take 8
  readUInt16LE data 13 >>= fun w =>
  let temperatureRawValue : Int :=
    if w &&& 0x0fff > 2047 then ((w &&& 0x0fff : Nat) : Int) - 4096
    else ((w &&& 0x0fff : Nat) : Int)
  let temperature : ℚ := (temperatureRawValue : ℚ) / 16
  readUInt8 data 15 >>= fun b15 =>
  let isMoving := (b15 &&& 0b01000000) == 1
  readInt8 data 16 >>= fun ax =>
  readInt8 data 17 >>= fun ay =>
  readInt8 data 18 >>= fun az =>
  let acceleration : Axes :=
    ⟨(ax : ℚ) * 15.625, (ay : ℚ) * 15.625, (az : ℚ) * 15.625⟩
  readUInt8 data 19 >>= fun b19 =>
  readUInt8 data 20 >>= fun b20 =>
  pure { nearableId, temperature, isMoving,
         motionStateDuration :=
           ⟨Nearable.parseMotionStateDuration b19,
            Nearable.parseMotionStateDuration b20⟩,
         acceleration }

/-- The Nearable example vector: company ID `0x015d`, frame type `0x01`,
identifier bytes 1..8, word `0x1000` at offset 13, byte 15 = `0b01000000`
(motion bit 6 set), acceleration raw `10, -20, 30`, durations `5, 5`. -/
def nearableExample : List Nat :=
  [0x5d, 0x01, 0x01, 1, 2, 3, 4, 5, 6, 7, 8, 0, 0,
   0x00, 0x10, 0b01000000, 10, 0xec, 30, 5, 5]

def nearableExampleRecord : NearablePacket :=
  { nearableId := [1, 2, 3, 4, 5, 6, 7, 8]
    temperature := 0
    isMoving := false
    motionStateDuration := ⟨⟨5, .seconds⟩, ⟨5, .seconds⟩⟩
    acceleration := ⟨156.25, -312.5, 468.75⟩ }

inductive GpioLevel where
  | high | low
deriving Repr, DecidableEq

structure Gpio where
  pin0 : GpioLevel
  pin1 : GpioLevel
  pin2 : GpioLevel
  pin3 : GpioLevel
deriving Repr, DecidableEq

structure TelemetryErrors where
  hasFirmwareError : Bool
  hasClockError : Bool
deriving Repr, DecidableEq

/-- The record returned for Telemetry subframe "A". -/
structure TelemetryA where
  shortIdentifier : List Nat
  protocolVersion : Nat
  acceleration : Axes
  isMoving : Bool
  motionStateDuration : MotionStateDuration
  pressure : Option ℚ
  gpio : Gpio
  errors : Option TelemetryErrors
deriving Repr, DecidableEq

/-- The record returned for Telemetry subframe "B". -/
structure TelemetryB where
  shortIdentifier : List Nat
  protocolVersion : Nat
  magneticField : Axes
  ambientLightLevel : ℚ
  temperature : ℚ
  uptime : DurationValue
  batteryVoltage : Option Nat
  batteryLevel : Option Nat
  errors : Option TelemetryErrors
deriving Repr, DecidableEq

inductive TelemetryPacket where
  | A : TelemetryA → TelemetryPacket
  | B : TelemetryB → TelemetryPacket
deriving Repr, DecidableEq

/-- Embedding of `parseEstimoteTelemetryPacket` from `estimote-telemetry.js`, line by line. -/
def parseEstimoteTelemetryPacket (data : List Nat) : DecodeResult TelemetryPacket :=
  readUInt8 data 0 >>= fun b0 =>
  -- byte 0, lower 4 bits => frame type; Telemetry is 2
  let frameType := b0 &&& 0b00001111
  if frameType ≠ 2 then .notApplicable else
  -- byte 0, upper 4 bits => protocol version; this parser understands up to 2
  let protocolVersion := (b0 &&& 0b11110000) >>> 4
  if protocolVersion > 2 then .notApplicable else
  -- `data.toString('hex', 1, 9)`: the identifier bytes (clamping slice)
  let shortIdentifier := (data.drop 1).take 8
  readUInt8 data 9 >>= fun b9 =>
  let subFrameType := b9 &&& 0b00000011
  if subFrameType = 0 then
    -- subframe "A"
    readInt8 data 10 >>= fun ax =>
    readInt8 data 11 >>= fun ay =>
    readInt8 data 12 >>= fun az =>
    let acceleration : Axes :=
      ⟨(ax : ℚ) * 2 / 127, (ay : ℚ) * 2 / 127, (az : ℚ) * 2 / 127⟩
    readUInt8 data 15 >>= fun b15 =>
    let isMoving := (b15 &&& 0b00000011) == 1
    readUInt8 data 13 >>= fun b13 =>
    readUInt8 data 14 >>= fun b14 =>
    let motionStateDuration : MotionStateDuration :=
      ⟨Telemetry.parseMotionStateDuration b14,
       Telemetry.parseMotionStateDuration b13⟩
    let gpio : Gpio :=
      ⟨if (b15 &&& 0b00010000) >>> 4 ≠ 0 then .high else .low,
       if (b15 &&& 0b00100000) >>> 5 ≠ 0 then .high else .low,
       if (b15 &&& 0b01000000) >>> 6 ≠ 0 then .high else .low,
       if (b15 &&& 0b10000000) >>> 7 ≠ 0 then .high else .low⟩
    (if protocolVersion = 2 then
       pure (some (TelemetryErrors.mk
         (((b15 &&& 0b00000100) >>> 2) == 1)
         (((b15 &&& 0b00001000) >>> 3) == 1)))
     else if protocolVersion = 1 then
       readUInt8 data 16 >>= fun b16 =>
       pure (some (TelemetryErrors.mk
         ((b16 &&& 0b00000001) == 1)
         (((b16 &&& 0b00000010) >>> 1) == 1)))
     else pure none) >>= fun errors =>
    (if protocolVersion = 2 then
       readUInt32LE data 16 >>= fun p => pure (some ((p : ℚ) / 256))
     else pure none) >>= fun pressure =>
    pure (TelemetryPacket.A
      { shortIdentifier, protocolVersion, acceleration, isMoving,
        motionStateDuration, pressure, gpio, errors })
  else if subFrameType = 1 then
    -- subframe "B"
    readInt8 data 10 >>= fun mx =>
    readInt8 data 11 >>= fun my =>
    readInt8 data 12 >>= fun mz =>
    let magneticField : Axes := ⟨(mx : ℚ) / 128, (my : ℚ) / 128, (mz : ℚ) / 128⟩
    readUInt8 data 13 >>= fun b13 =>
    let ambientLightUpper := (b13 &&& 0b11110000) >>> 4
    let ambientLightLower := b13 &&& 0b00001111
    let ambientLightLevel : ℚ :=
      (2 ^ ambientLightUpper : ℚ) * (ambientLightLower : ℚ) * 0.72
    readUInt8 data 15 >>= fun b15 =>
    let uptimeUnitCode := (b15 &&& 0b00110000) >>> 4
    let uptimeUnit : DurationUnit :=
      if uptimeUnitCode = 0 then .seconds
      else if uptimeUnitCode = 1 then .minutes
      else if uptimeUnitCode = 2 then .hours
      else .days
    readUInt8 data 14 >>= fun b14 =>
    let uptime : DurationValue :=
      ⟨(((b15 &&& 0b00001111) <<< 8) ||| b14 : Nat), uptimeUnit⟩
    readUInt8 data 17 >>= fun b17 =>
    readUInt8 data 16 >>= fun b16 =>
    let temperatureRawValue :=
      ((b17 &&& 0b00000011) <<< 10) ||| (b16 <<< 2) ||| ((b15 &&& 0b11000000) >>> 6)
    let t : Int :=
      if temperatureRawValue > 2047 then (temperatureRawValue : Int) - 4096
      else (temperatureRawValue : Int)
    let temperature : ℚ := (t : ℚ) / 16
    readUInt8 data 18 >>= fun b18 =>
    let batteryVoltageRaw := (b18 <<< 6) ||| ((b17 &&& 0b11111100) >>> 2)
    let batteryVoltage : Option Nat :=
      if batteryVoltageRaw = 0b11111111111111 then none else some batteryVoltageRaw
    (if protocolVersion = 0 then
       readUInt8 data 19 >>= fun b19 =>
       pure (some (TelemetryErrors.mk
         ((b19 &&& 0b00000001) == 1)
         (((b19 &&& 0b00000010) >>> 1) == 1)))
     else pure none) >>= fun errors =>
    (if 1 ≤ protocolVersion then
       readUInt8 data 19 >>= fun b19 =>
       pure (if b19 = 0b11111111 then none else some b19)
     else pure none) >>= fun batteryLevel =>
    pure (TelemetryPacket.B
      { shortIdentifier, protocolVersion, magneticField, ambientLightLevel,
        temperature, uptime, batteryVoltage, batteryLevel, errors })
  else .notApplicable

/-- The Telemetry subframe-A example vector, protocol version 2:
byte 0 = `0b0010_0010`, identifier bytes 1..8, byte 9 = 0 (subframe A),
zero acceleration, durations 5 / 6, byte 15 = 1 (moving, no errors, GPIO low),
pressure bytes `0xFC 0x98 0x88 0x01` at offsets 16..19. -/
def telemetryExampleA2 : List Nat :=
  [0x22, 1, 2, 3, 4, 5, 6, 7, 8, 0, 0, 0, 0, 5, 6, 1, 0xfc, 0x98, 0x88, 0x01]

def telemetryExampleA2Record : TelemetryA :=
  { shortIdentifier := [1, 2, 3, 4, 5, 6, 7, 8]
    protocolVersion := 2
    acceleration := ⟨0, 0, 0⟩
    isMoving := true
    motionStateDuration := ⟨⟨6, .seconds⟩, ⟨5, .seconds⟩⟩
    pressure := some 100504.984375
    gpio := ⟨.low, .low, .low, .low⟩
    errors := some ⟨false, false⟩ }

/-- Same vector with byte 15 = `0b0000_0010`: the undocumented motion
selector value 2. -/
def telemetryExampleA2sel2 : List Nat :=
  [0x22, 1, 2, 3, 4, 5, 6, 7, 8, 0, 0, 0, 0, 5, 6, 2, 0xfc, 0x98, 0x88, 0x01]

def telemetryExampleA2sel2Record : TelemetryA :=
  { telemetryExampleA2Record with isMoving := false }

/-- A Telemetry subframe-B example vector, protocol version 1:
byte 0 = `0b0001_0010`, identifier bytes 1..8, byte 9 = 1 (subframe B),
zero magnetic field, zero light, uptime 7 seconds, zero temperature,
battery voltage raw 64, battery level 80. -/
def telemetryExampleB1 : List Nat :=
  [0x12, 1, 2, 3, 4, 5, 6, 7, 8, 1, 0, 0, 0, 0, 7, 0, 0, 0, 1, 80]

def telemetryExampleB1Record : TelemetryB :=
  { shortIdentifier := [1, 2, 3, 4, 5, 6, 7, 8]
    protocolVersion := 1
    magneticField := ⟨0, 0, 0⟩
    ambientLightLevel := 0
    temperature := 0
    uptime := ⟨7, .seconds⟩
    batteryVoltage := some 64
    batteryLevel := some 80
    errors := none }

/-- The pressure field of a decoded Telemetry record (subframe B has none). -/
def TelemetryPacket.pressureField : TelemetryPacket → Option ℚ
  | .A a => a.pressure
  | .B _ => none

/-! Helper lemmas -/

@[simp] theorem DecodeResult.ok_bind (a : α) (f : α → DecodeResult β) :
    (DecodeResult.ok a >>= f) = f a := rfl

@[simp] theorem DecodeResult.outOfRange_bind (f : α → DecodeResult β) :
    (DecodeResult.outOfRange >>= f) = DecodeResult.outOfRange := rfl

@[simp] theorem DecodeResult.notApplicable_bind (f : α → DecodeResult β) :
    (DecodeResult.notApplicable >>= f) = DecodeResult.notApplicable := rfl

@[simp] theorem DecodeResult.pure_eq_ok (a : α) :
    (pure a : DecodeResult α) = DecodeResult.ok a := rfl

theorem bind_eq_ok_iff (x : DecodeResult α) (f : α → DecodeResult β) (b : β) :
    (x >>= f) = .ok b ↔ ∃ a, x = .ok a ∧ f a = .ok b := by
  cases x <;> simp [Bind.bind]

theorem bind_eq_na_iff (x : DecodeResult α) (f : α → DecodeResult β) :
    (x >>= f) = .notApplicable ↔
      x = .notApplicable ∨ ∃ a, x = .ok a ∧ f a = .notApplicable := by
  cases x <;> simp [Bind.bind]

theorem bind_eq_oor_iff (x : DecodeResult α) (f : α → DecodeResult β) :
    (x >>= f) = .outOfRange ↔
      x = .outOfRange ∨ ∃ a, x = .ok a ∧ f a = .outOfRange := by
  cases x <;> simp [Bind.bind]

theorem readUInt8_eq_ok_iff (data : List Nat) (i : Nat) (a : Nat) :
    readUInt8 data i = .ok a ↔ data.get? i = some a := by
  unfold readUInt8; cases h : data.get? i <;> simp

theorem readUInt8_eq_na_iff (data : List Nat) (i : Nat) :
    readUInt8 data i = .notApplicable ↔ False := by
  unfold readUInt8; cases h : data.get? i <;> simp

theorem readUInt8_eq_oor_iff (data : List Nat) (i : Nat) :
    readUInt8 data i = .outOfRange ↔ data.get? i = none := by
  unfold readUInt8; cases h : data.get? i <;> simp

theorem parse_nearableExample :
    parseEstimoteNearablePacket nearableExample = .ok nearableExampleRecord := by
  norm_num +decide [parseEstimoteNearablePacket, readUInt16LE, readUInt8, readInt8,
    nearableExample, nearableExampleRecord, Nearable.parseMotionStateDuration]

theorem parse_telemetryExampleA2 :
    parseEstimoteTelemetryPacket telemetryExampleA2 = .ok (.A telemetryExampleA2Record) := by
  norm_num +decide [parseEstimoteTelemetryPacket, readUInt32LE, readUInt8, readInt8,
    telemetryExampleA2, telemetryExampleA2Record, Telemetry.parseMotionStateDuration]
  rw [(by decide : ((252 : Nat) ||| 152 <<< 8 ||| 136 <<< 16 ||| 1 <<< 24) = 25729276)]
  norm_num

theorem parse_telemetryExampleA2sel2 :
    parseEstimoteTelemetryPacket telemetryExampleA2sel2 = .ok (.A telemetryExampleA2sel2Record) := by
  norm_num +decide [parseEstimoteTelemetryPacket, readUInt32LE, readUInt8, readInt8,
    telemetryExampleA2, telemetryExampleA2sel2, telemetryExampleA2Record,
    telemetryExampleA2sel2Record, Telemetry.parseMotionStateDuration]
  rw [(by decide : ((252 : Nat) ||| 152 <<< 8 ||| 136 <<< 16 ||| 1 <<< 24) = 25729276)]
  norm_num

theorem parse_telemetryExampleB1 :
    parseEstimoteTelemetryPacket telemetryExampleB1 = .ok (.B telemetryExampleB1Record) := by
  norm_num +decide [parseEstimoteTelemetryPacket, readUInt32LE, readUInt8, readInt8,
    telemetryExampleB1, telemetryExampleB1Record, Telemetry.parseMotionStateDuration]


/-! Claims -/

/-- C1 (code bug): the claim says a Nearable buffer whose byte at offset 15 has
bit 6 set decodes with `isMoving = true`.  The source computes
`isMoving = (data.readUInt8(15) & 0b01000000) == 1`, comparing the masked
value (0 or 64) against `1`, so `isMoving` is `false` even on the example
buffer whose byte 15 is exactly `0b01000000`: the code contradicts its own
comment ("byte 15, 7th bit = is the nearable moving or not"). -/
theorem nearable_isMoving_false_despite_motion_bit :
    nearableExample.get? 15 = some 0b01000000 ∧
    DecodeResult.project NearablePacket.isMoving
      (parseEstimoteNearablePacket nearableExample) = .ok false := by
  refine ⟨by decide, ?_⟩
  rw [parse_nearableExample]
  rfl

/-- C2: the Nearable duration decoder maps `0b11011111` (unit code 3,
magnitude 31) to 31 days and `0b11100000` (magnitude 32) to 0 weeks, while
the Telemetry duration decoder maps magnitude 32 to 32 days and magnitude 33
to 1 week; unit codes 0, 1, 2 map to seconds, minutes, hours with the 6-bit
magnitude unchanged in both formats. -/
theorem motion_state_duration_thresholds (b : Nat) :
    Nearable.parseMotionStateDuration 0b11011111 = ⟨31, .days⟩ ∧
    Nearable.parseMotionStateDuration 0b11100000 = ⟨0, .weeks⟩ ∧
    Telemetry.parseMotionStateDuration 0b11100000 = ⟨32, .days⟩ ∧
    Telemetry.parseMotionStateDuration 0b11100001 = ⟨1, .weeks⟩ ∧
    ((b &&& 0b11000000) >>> 6 = 0 →
      Nearable.parseMotionStateDuration b = ⟨(b &&& 0b00111111 : Nat), .seconds⟩ ∧
      Telemetry.parseMotionStateDuration b = ⟨(b &&& 0b00111111 : Nat), .seconds⟩) ∧
    ((b &&& 0b11000000) >>> 6 = 1 →
      Nearable.parseMotionStateDuration b = ⟨(b &&& 0b00111111 : Nat), .minutes⟩ ∧
      Telemetry.parseMotionStateDuration b = ⟨(b &&& 0b00111111 : Nat), .minutes⟩) ∧
    ((b &&& 0b11000000) >>> 6 = 2 →
      Nearable.parseMotionStateDuration b = ⟨(b &&& 0b00111111 : Nat), .hours⟩ ∧
      Telemetry.parseMotionStateDuration b = ⟨(b &&& 0b00111111 : Nat), .hours⟩) := by
  refine ⟨by decide, by decide, by decide, by decide, ?_, ?_, ?_⟩ <;>
    intro h <;>
    constructor <;>
    simp [Nearable.parseMotionStateDuration, Telemetry.parseMotionStateDuration, h]

/-- Witness for C2 at byte `0b01000101` (unit code 1, magnitude 5). -/
theorem motion_state_duration_thresholds_witness :
    (0b01000101 &&& 0b11000000) >>> 6 = 1 ∧
    Nearable.parseMotionStateDuration 0b01000101 = ⟨5, .minutes⟩ :=
  ⟨by decide, ((motion_state_duration_thresholds 0b01000101).2.2.2.2.2.1 (by decide)).1⟩

/-- C3 counterexample: on the documented subframe-A version-2 vector
(pressure bytes `0xFC 0x98 0x88 0x01` at offsets 16..19), the decoded
pressure is `25729276 / 256 = 100504.984375` Pa, not `100505` Pa. -/
theorem telemetry_pressure_example_not_100505 :
    DecodeResult.project TelemetryPacket.pressureField
      (parseEstimoteTelemetryPacket telemetryExampleA2) ≠ .ok (some 100505) := by
  rw [parse_telemetryExampleA2]
  norm_num [DecodeResult.project, TelemetryPacket.pressureField, telemetryExampleA2Record]

/-- C3 (amended): for every Telemetry buffer decoded as subframe A with
protocol version 2 and bytes `0xFC, 0x98, 0x88, 0x01` at offsets 16..19, the
decoded pressure is exactly `25729276 / 256` Pa (`= 100504.984375`, exact in
binary floating point; the spec example's `100505.0` is off by `1/64`). -/
theorem telemetry_pressure_value (data : List Nat) (a : TelemetryA)
    (h : parseEstimoteTelemetryPacket data = .ok (.A a))
    (hv : a.protocolVersion = 2)
    (h16 : data.get? 16 = some 0xfc) (h17 : data.get? 17 = some 0x98)
    (h18 : data.get? 18 = some 0x88) (h19 : data.get? 19 = some 0x01) :
    a.pressure = some ((25729276 : ℚ) / 256) := by
  unfold parseEstimoteTelemetryPacket at h
  simp only [bind_eq_ok_iff, readUInt8_eq_ok_iff, readInt8, readUInt32LE,
    DecodeResult.ok_bind, DecodeResult.pure_eq_ok, ite_eq_iff, DecodeResult.ok.injEq,
    TelemetryPacket.A.injEq, reduceCtorEq, false_and, and_false,
    or_false, false_or, exists_false, h16, h17, h18, h19,
    Option.some.injEq, Nat.reduceAdd, exists_eq_left, exists_eq_left'] at h
  obtain ⟨b0, hb0, hft, hver, b9, hb9, hsub, ax, hax, ay, hay, az, haz,
    b15, hb15, b13, hb13, b14, hb14, err, herr, press, hpress, hrec⟩ := h
  subst hrec
  dsimp only at hv ⊢
  rcases hpress with ⟨h2, hp⟩ | ⟨hn2, hp⟩
  · rw [← hp, (by decide : ((252 : Nat) ||| 152 <<< 8 ||| 136 <<< 16 ||| 1 <<< 24) = 25729276)]
    norm_num
  · exact absurd hv hn2

/-- Witness for C3 on the example vector. -/
theorem telemetry_pressure_value_witness :
    telemetryExampleA2Record.pressure = some ((25729276 : ℚ) / 256) :=
  telemetry_pressure_value telemetryExampleA2 telemetryExampleA2Record
    parse_telemetryExampleA2 rfl (by decide) (by decide) (by decide) (by decide)

/-- C9 counterexample: the example Nearable buffer passes the
discriminator checks and has bytes `0x00, 0x10` at offsets 13 and 14, yet
its decoded temperature is `0` °C, not `16` °C (the raw value is
`0x1000 & 0x0fff = 0`). -/
theorem nearable_temperature_example_not_16 :
    DecodeResult.project NearablePacket.temperature
      (parseEstimoteNearablePacket nearableExample) ≠ .ok 16 := by
  rw [parse_nearableExample]
  norm_num [DecodeResult.project, nearableExampleRecord]

/-- C9 (amended): every Nearable buffer that decodes successfully with
bytes `0x00, 0x10` at offsets 13 and 14 yields temperature `0` °C. -/
theorem nearable_temperature_0x1000_is_zero (data : List Nat) (r : NearablePacket)
    (h : parseEstimoteNearablePacket data = .ok r)
    (h13 : data.get? 13 = some 0x00) (h14 : data.get? 14 = some 0x10) :
    r.temperature = 0 := by
  unfold parseEstimoteNearablePacket readUInt16LE at h
  simp only [bind_eq_ok_iff, readUInt8_eq_ok_iff, readInt8, DecodeResult.ok_bind,
    DecodeResult.pure_eq_ok, ite_eq_iff, DecodeResult.ok.injEq, reduceCtorEq,
    false_and, and_false, or_false, false_or, exists_false, h13, h14,
    Option.some.injEq, Nat.reduceAdd, exists_eq_left, exists_eq_left'] at h
  obtain ⟨c, hc, hcompany, f, hf, hframe, b15, hb15,
    ax, hax, ay, hay, az, haz, b19, h19, b20, h20, hrec⟩ := h
  subst hrec
  norm_num +decide [(by decide : ((0 ||| 16 <<< 8 : Nat) &&& 4095) = 0)]

/-- Witness for C9 on the example vector. -/
theorem nearable_temperature_0x1000_is_zero_witness :
    nearableExampleRecord.temperature = 0 :=
  nearable_temperature_0x1000_is_zero nearableExample nearableExampleRecord
    parse_nearableExample (by decide) (by decide)

/-- C4: in every Telemetry subframe-B decode, the ambient temperature is
`s / 16` °C where the 12-bit raw value is
`(byte17 & 0b11) << 10 | byte16 << 2 | (byte15 & 0b11000000) >> 6`,
and `s = raw` for `raw ≤ 2047`, `s = raw - 4096` for `raw ∈ [2048, 4095]`
(the raw value never exceeds 4095 for byte inputs). -/
theorem telemetryB_temperature (data : List Nat) (b : TelemetryB)
    (b15 b16 b17 raw : Nat)
    (h : parseEstimoteTelemetryPacket data = .ok (.B b))
    (h15 : data.get? 15 = some b15) (h16 : data.get? 16 = some b16)
    (h17 : data.get? 17 = some b17) (hb16 : b16 < 256)
    (hraw : raw = ((b17 &&& 0b00000011) <<< 10) ||| (b16 <<< 2) |||
                  ((b15 &&& 0b11000000) >>> 6)) :
    raw ≤ 4095 ∧
    b.temperature =
      ((if raw ≤ 2047 then (raw : Int) else (raw : Int) - 4096 : Int) : ℚ) / 16 := by
  have hbound : raw ≤ 4095 := by
    have h1 : b17 &&& 3 ≤ 3 := Nat.and_le_right
    have h2 : b15 &&& 192 ≤ 192 := Nat.and_le_right
    have e1 : (b17 &&& 3) <<< 10 = (b17 &&& 3) * 2 ^ 10 := Nat.shiftLeft_eq _ _
    have e2 : b16 <<< 2 = b16 * 2 ^ 2 := Nat.shiftLeft_eq _ _
    have e3 : (b15 &&& 192) >>> 6 = (b15 &&& 192) / 2 ^ 6 := Nat.shiftRight_eq_div_pow _ _
    have o1 : (b17 &&& 3) <<< 10 < 2 ^ 12 := by omega
    have o2 : b16 <<< 2 < 2 ^ 12 := by omega
    have o3 : (b15 &&& 192) >>> 6 < 2 ^ 12 := by omega
    have := Nat.or_lt_two_pow (Nat.or_lt_two_pow o1 o2) o3
    omega
  refine ⟨hbound, ?_⟩
  unfold parseEstimoteTelemetryPacket at h
  simp only [bind_eq_ok_iff, readUInt8_eq_ok_iff, readInt8, readUInt32LE,
    DecodeResult.ok_bind, DecodeResult.pure_eq_ok, ite_eq_iff, DecodeResult.ok.injEq,
    TelemetryPacket.B.injEq, reduceCtorEq, false_and, and_false,
    or_false, false_or, exists_false, h15, h16, h17,
    Option.some.injEq, Nat.reduceAdd, exists_eq_left, exists_eq_left'] at h
  obtain ⟨b0, hb0, hft, hver, b9, hb9, hs0, hs1, mx, hmx, my, hmy, mz, hmz,
    b13, hb13, b14, hb14, b18, hb18, err, herr, batt, hbatt, hrec⟩ := h
  subst hrec
  subst hraw
  dsimp only
  rcases Nat.lt_or_ge 2047 ((b17 &&& 3) <<< 10 ||| b16 <<< 2 ||| (b15 &&& 192) >>> 6)
    with hgt | hle
  · rw [if_pos hgt, if_neg (by omega)]
  · rw [if_neg (by omega), if_pos hle]

/-- Witness for C4 on the subframe-B example (all three bytes zero). -/
theorem telemetryB_temperature_witness :
    (0 : Nat) ≤ 4095 ∧
    telemetryExampleB1Record.temperature =
      ((if (0 : Nat) ≤ 2047 then ((0 : Nat) : Int) else ((0 : Nat) : Int) - 4096 : Int) : ℚ) / 16 :=
  telemetryB_temperature telemetryExampleB1 telemetryExampleB1Record 0 0 0 0
    parse_telemetryExampleB1 (by decide) (by decide) (by decide) (by decide) (by decide)

/-- C8: in every Telemetry subframe-B decode, a battery-voltage raw value
of 16383 (all 14 bits set) yields an absent `batteryVoltage`, any other value
is reported as read; for protocol version ≥ 1 a battery-level byte of 255
yields an absent `batteryLevel`, any other value is reported as read. -/
theorem telemetryB_battery_sentinels (data : List Nat) (b : TelemetryB)
    (b17 b18 b19 volt : Nat)
    (h : parseEstimoteTelemetryPacket data = .ok (.B b))
    (h17 : data.get? 17 = some b17) (h18 : data.get? 18 = some b18)
    (h19 : data.get? 19 = some b19)
    (hvolt : volt = (b18 <<< 6) ||| ((b17 &&& 0b11111100) >>> 2)) :
    (volt = 16383 → b.batteryVoltage = none) ∧
    (volt ≠ 16383 → b.batteryVoltage = some volt) ∧
    (1 ≤ b.protocolVersion →
      (b19 = 255 → b.batteryLevel = none) ∧ (b19 ≠ 255 → b.batteryLevel = some b19)) := by
  unfold parseEstimoteTelemetryPacket at h
  simp only [bind_eq_ok_iff, readUInt8_eq_ok_iff, readInt8, readUInt32LE,
    DecodeResult.ok_bind, DecodeResult.pure_eq_ok, ite_eq_iff, DecodeResult.ok.injEq,
    TelemetryPacket.B.injEq, reduceCtorEq, false_and, and_false,
    or_false, false_or, exists_false, h17, h18, h19,
    Option.some.injEq, Nat.reduceAdd, exists_eq_left, exists_eq_left'] at h
  obtain ⟨b0, hb0, hft, hver, b9, hb9, hs0, hs1, mx, hmx, my, hmy, mz, hmz,
    b13, hb13, b15, hb15, b14, hb14, b16, hb16, err, herr, batt, hbatt, hrec⟩ := h
  subst hrec
  subst hvolt
  dsimp only
  refine ⟨fun heq => by rw [if_pos heq], fun hne => by rw [if_neg hne], fun hv1 => ?_⟩
  rcases hbatt with ⟨_, ⟨h255, hb⟩ | ⟨h255, hb⟩⟩ | ⟨hnv, hb⟩
  · subst hb
    exact ⟨fun _ => rfl, fun hcontra => absurd h255 hcontra⟩
  · subst hb
    exact ⟨fun hcontra => absurd hcontra h255, fun _ => rfl⟩
  · exact absurd hv1 hnv

/-- Witness for C8 on the subframe-B example (voltage raw 64, level 80). -/
theorem telemetryB_battery_sentinels_witness :
    telemetryExampleB1Record.batteryVoltage = some 64 ∧
    telemetryExampleB1Record.batteryLevel = some 80 :=
  ⟨(telemetryB_battery_sentinels telemetryExampleB1 telemetryExampleB1Record 0 1 80 64
      parse_telemetryExampleB1 (by decide) (by decide) (by decide) (by decide)).2.1
      (by decide),
   ((telemetryB_battery_sentinels telemetryExampleB1 telemetryExampleB1Record 0 1 80 64
      parse_telemetryExampleB1 (by decide) (by decide) (by decide) (by decide)).2.2
      (by decide)).2 (by decide)⟩

/-- C10: in every Telemetry subframe-A decode, `isMoving` is true exactly
when the lower two bits of byte 15 equal 1; the undocumented selector value
2 still produces a complete record (not absent) with `isMoving = false`,
shown on a concrete buffer. -/
theorem telemetryA_isMoving_selector (data : List Nat) (a : TelemetryA) (b15 : Nat)
    (h : parseEstimoteTelemetryPacket data = .ok (.A a))
    (h15 : data.get? 15 = some b15) :
    (a.isMoving = true ↔ b15 &&& 0b00000011 = 1) ∧
    (telemetryExampleA2sel2.get? 15 = some 2 ∧
     parseEstimoteTelemetryPacket telemetryExampleA2sel2 = .ok (.A telemetryExampleA2sel2Record) ∧
     telemetryExampleA2sel2Record.isMoving = false) := by
  refine ⟨?_, by decide, parse_telemetryExampleA2sel2, rfl⟩
  unfold parseEstimoteTelemetryPacket at h
  simp only [bind_eq_ok_iff, readUInt8_eq_ok_iff, readInt8, readUInt32LE,
    DecodeResult.ok_bind, DecodeResult.pure_eq_ok, ite_eq_iff, DecodeResult.ok.injEq,
    TelemetryPacket.A.injEq, reduceCtorEq, false_and, and_false,
    or_false, false_or, exists_false, h15,
    Option.some.injEq, Nat.reduceAdd, exists_eq_left, exists_eq_left'] at h
  obtain ⟨b0, hb0, hft, hver, b9, hb9, hsub, ax, hax, ay, hay, az, haz,
    b13, hb13, b14, hb14, err, herr, press, hpress, hrec⟩ := h
  subst hrec
  dsimp only
  simp [beq_iff_eq]

/-- Witness for C10 on the moving subframe-A example (byte 15 = 1). -/
theorem telemetryA_isMoving_selector_witness :
    telemetryExampleA2Record.isMoving = true ∧ (1 : Nat) &&& 0b00000011 = 1 :=
  ⟨((telemetryA_isMoving_selector telemetryExampleA2 telemetryExampleA2Record 1
      parse_telemetryExampleA2 (by decide)).1).mpr (by decide), by decide⟩

theorem discriminator_checks_yield_absent (data : List Nat) :
    (∀ c, readUInt16LE data 0 = .ok c → c ≠ 0x015d →
       parseEstimoteNearablePacket data = .notApplicable) ∧
    (∀ f, readUInt16LE data 0 = .ok 0x015d → readUInt8 data 2 = .ok f → f ≠ 0x01 →
       parseEstimoteNearablePacket data = .notApplicable) ∧
    (∀ b0, readUInt8 data 0 = .ok b0 → b0 &&& 0b00001111 ≠ 2 →
       parseEstimoteTelemetryPacket data = .notApplicable) ∧
    (∀ b0, readUInt8 data 0 = .ok b0 → b0 &&& 0b00001111 = 2 →
       (b0 &&& 0b11110000) >>> 4 > 2 →
       parseEstimoteTelemetryPacket data = .notApplicable) ∧
    (∀ b0 b9, readUInt8 data 0 = .ok b0 → b0 &&& 0b00001111 = 2 →
       (b0 &&& 0b11110000) >>> 4 ≤ 2 → readUInt8 data 9 = .ok b9 →
       b9 &&& 0b00000011 ≠ 0 → b9 &&& 0b00000011 ≠ 1 →
       parseEstimoteTelemetryPacket data = .notApplicable) := by
  refine ⟨?_, ?_, ?_, ?_, ?_⟩
  · intro c hc hne
    unfold parseEstimoteNearablePacket
    rw [hc]
    simp [hne]
  · intro f hc hf hne
    unfold parseEstimoteNearablePacket
    rw [hc]
    simp [hf, hne]
  · intro b0 hb0 hne
    unfold parseEstimoteTelemetryPacket
    rw [hb0]
    simp [hne]
  · intro b0 hb0 hft hgt
    unfold parseEstimoteTelemetryPacket
    rw [hb0]
    simp [hft, hgt]
  · intro b0 b9 hb0 hft hle hb9 hne0 hne1
    have hver : ¬((b0 &&& 0b11110000) >>> 4 > 2) := by omega
    unfold parseEstimoteTelemetryPacket
    rw [hb0]
    simp [hft, hver, hb9, hne0, hne1]

/-- Witness for C5: a zero company identifier and a zero frame-type byte. -/
theorem discriminator_checks_yield_absent_witness :
    parseEstimoteNearablePacket [0, 0] = .notApplicable ∧
    parseEstimoteTelemetryPacket [0] = .notApplicable :=
  ⟨(discriminator_checks_yield_absent [0, 0]).1 0 (by decide) (by decide),
   (discriminator_checks_yield_absent [0]).2.2.1 0 (by decide) (by decide)⟩

theorem telemetry_optional_fields (data : List Nat) (p : TelemetryPacket)
    (h : parseEstimoteTelemetryPacket data = .ok p) :
    (∀ a, p = .A a →
       (a.errors.isSome ↔ (a.protocolVersion = 1 ∨ a.protocolVersion = 2)) ∧
       (a.pressure.isSome ↔ a.protocolVersion = 2) ∧
       (∀ b15, data.get? 15 = some b15 → a.protocolVersion = 2 →
          a.errors = some ⟨(b15 &&& 0b00000100) >>> 2 == 1, (b15 &&& 0b00001000) >>> 3 == 1⟩) ∧
       (∀ b16, data.get? 16 = some b16 → a.protocolVersion = 1 →
          a.errors = some ⟨b16 &&& 0b00000001 == 1, (b16 &&& 0b00000010) >>> 1 == 1⟩)) ∧
    (∀ b, p = .B b →
       (b.errors.isSome ↔ b.protocolVersion = 0) ∧
       (b.batteryLevel.isSome → 1 ≤ b.protocolVersion) ∧
       (b.protocolVersion = 0 → b.batteryLevel = none) ∧
       (∀ b19, data.get? 19 = some b19 → b.protocolVersion = 0 →
          b.errors = some ⟨b19 &&& 0b00000001 == 1, (b19 &&& 0b00000010) >>> 1 == 1⟩)) := by
  unfold parseEstimoteTelemetryPacket at h
  simp only [bind_eq_ok_iff, readUInt8_eq_ok_iff, readInt8, readUInt32LE,
    DecodeResult.ok_bind, DecodeResult.pure_eq_ok, ite_eq_iff, DecodeResult.ok.injEq,
    reduceCtorEq, false_and, and_false, or_false, false_or, exists_false,
    Option.some.injEq, Nat.reduceAdd, exists_eq_left, exists_eq_left'] at h
  obtain ⟨b0, hb0, hft, hver, b9, hb9, harm⟩ := h
  rcases harm with ⟨hs0, rest⟩ | ⟨hs0, hs1, rest⟩
  · -- subframe A
    obtain ⟨ax, hax, ay, hay, az, haz, b15, hb15, b13, hb13, b14, hb14,
      err, herr, press, hpress, hrec⟩ := rest
    subst hrec
    refine ⟨?_, fun b hb => by simp at hb⟩
    intro a ha
    injection ha with ha
    subst ha
    dsimp only
    rcases herr with ⟨hv2, herr'⟩ | ⟨hnv2, ⟨hv1, b16, hgb16, herr'⟩ | ⟨hnv1, herr'⟩⟩ <;>
      subst herr'
    · rcases hpress with ⟨hv2', q, hq, hp⟩ | ⟨hnv2', hp⟩
      · subst hp
        refine ⟨by simp [hv2], by simp [hv2], ?_, ?_⟩
        · intro b15x hg hv
          rw [hb15] at hg
          injection hg with hg
          subst hg
          rfl
        · intro b16x hg hv
          exact absurd hv (by omega)
      · exact absurd hv2 hnv2'
    · rcases hpress with ⟨hv2', q, hq, hp⟩ | ⟨hnv2', hp⟩
      · exact absurd hv2' hnv2
      · subst hp
        refine ⟨by simp [hv1], by simp [hnv2'], ?_, ?_⟩
        · intro b15x hg hv
          exact absurd hv hnv2
        · intro b16x hg hv
          rw [hgb16] at hg
          injection hg with hg
          subst hg
          rfl
    · rcases hpress with ⟨hv2', q, hq, hp⟩ | ⟨hnv2', hp⟩
      · exact absurd hv2' hnv2
      · subst hp
        refine ⟨by simp [hnv1, hnv2], by simp [hnv2'], ?_, ?_⟩
        · intro b15x hg hv
          exact absurd hv hnv2
        · intro b16x hg hv
          exact absurd hv hnv1
  · -- subframe B
    obtain ⟨mx, hmx, my, hmy, mz, hmz, b13, hb13, b15, hb15, b14, hb14,
      b17, hb17, b16, hb16, b18, hb18, err, herr, batt, hbatt, hrec⟩ := rest
    subst hrec
    refine ⟨fun a ha => by simp at ha, ?_⟩
    intro b hb
    injection hb with hb
    subst hb
    dsimp only
    rcases herr with ⟨hv0, b19, hgb19, herr'⟩ | ⟨hnv0, herr'⟩ <;>
      subst herr' <;>
      rcases hbatt with ⟨hv1, b19', hgb19', hbatt'⟩ | ⟨hnv1, hbatt'⟩
    · exact absurd hv1 (by omega)
    · subst hbatt'
      refine ⟨by simp [hv0], by simp, fun _ => rfl, ?_⟩
      intro b19x hg hv
      rw [hgb19] at hg
      injection hg with hg
      subst hg
      rfl
    · rcases hbatt' with ⟨h255, hb'⟩ | ⟨h255, hb'⟩ <;> subst hb'
      · refine ⟨by simp [hnv0], by simp, fun hv => absurd hv hnv0, ?_⟩
        intro b19x hg hv
        exact absurd hv hnv0
      · refine ⟨by simp [hnv0], fun _ => hv1, fun hv => absurd hv hnv0, ?_⟩
        intro b19x hg hv
        exact absurd hv hnv0
    · subst hbatt'
      refine ⟨by simp [hnv0], by simp, fun _ => rfl, ?_⟩
      intro b19x hg hv
      exact absurd hv hnv0

/-- Witness for C6 on the version-1 subframe-B example (no errors field). -/
theorem telemetry_optional_fields_witness :
    telemetryExampleB1Record.errors.isSome ↔ telemetryExampleB1Record.protocolVersion = 0 :=
  ((telemetry_optional_fields telemetryExampleB1 (.B telemetryExampleB1Record)
      parse_telemetryExampleB1).2 telemetryExampleB1Record rfl).1

theorem readUInt16LE_eq_na_iff (data : List Nat) (i : Nat) :
    readUInt16LE data i = .notApplicable ↔ False := by
  unfold readUInt16LE
  simp [bind_eq_na_iff, readUInt8_eq_na_iff, readUInt8_eq_ok_iff]

theorem readInt8_eq_na_iff (data : List Nat) (i : Nat) :
    readInt8 data i = .notApplicable ↔ False := by
  unfold readInt8
  simp [bind_eq_na_iff, readUInt8_eq_na_iff, readUInt8_eq_ok_iff]

theorem readUInt32LE_eq_na_iff (data : List Nat) (i : Nat) :
    readUInt32LE data i = .notApplicable ↔ False := by
  unfold readUInt32LE
  simp [bind_eq_na_iff, readUInt8_eq_na_iff, readUInt8_eq_ok_iff]

theorem get?_lt_length (data : List Nat) (i a : Nat) (h : data.get? i = some a) :
    i < data.length := by
  by_contra hge
  rw [List.get?_eq_none.mpr (by omega)] at h
  cases h
/-- C7: for every buffer of length at least 21, neither decoder returns
the out-of-range failure (the highest offsets read are 20 for Nearable and
19 for Telemetry); a Nearable buffer that passes both discriminator checks
but is shorter than 21 bytes decodes to the out-of-range failure, as does a
Telemetry subframe-B buffer shorter than 20 bytes -- a result distinct from
the "not applicable" outcome. -/
theorem decode_total_and_out_of_range (data : List Nat) :
    (21 ≤ data.length →
       parseEstimoteNearablePacket data ≠ .outOfRange ∧
       parseEstimoteTelemetryPacket data ≠ .outOfRange) ∧
    (readUInt16LE data 0 = .ok 0x015d → readUInt8 data 2 = .ok 0x01 →
       data.length < 21 → parseEstimoteNearablePacket data = .outOfRange) ∧
    (∀ b0 b9, readUInt8 data 0 = .ok b0 → b0 &&& 0b00001111 = 2 →
       (b0 &&& 0b11110000) >>> 4 ≤ 2 → readUInt8 data 9 = .ok b9 →
       b9 &&& 0b00000011 = 1 → data.length < 20 →
       parseEstimoteTelemetryPacket data = .outOfRange) ∧
    (DecodeResult.outOfRange : DecodeResult NearablePacket) ≠ .notApplicable := by
  refine ⟨?_, ?_, ?_, by simp⟩
  · intro hlen
    have e : ∀ i, i < data.length → ∃ b, data.get? i = some b :=
      fun i hi => ⟨data.get ⟨i, hi⟩, List.get?_eq_get hi⟩
    obtain ⟨v0, e0⟩ := e 0 (by omega)
    obtain ⟨v1, e1⟩ := e 1 (by omega)
    obtain ⟨v2, e2⟩ := e 2 (by omega)
    obtain ⟨v9, e9⟩ := e 9 (by omega)
    obtain ⟨v10, e10⟩ := e 10 (by omega)
    obtain ⟨v11, e11⟩ := e 11 (by omega)
    obtain ⟨v12, e12⟩ := e 12 (by omega)
    obtain ⟨v13, e13⟩ := e 13 (by omega)
    obtain ⟨v14, e14⟩ := e 14 (by omega)
    obtain ⟨v15, e15⟩ := e 15 (by omega)
    obtain ⟨v16, e16⟩ := e 16 (by omega)
    obtain ⟨v17, e17⟩ := e 17 (by omega)
    obtain ⟨v18, e18⟩ := e 18 (by omega)
    obtain ⟨v19, e19⟩ := e 19 (by omega)
    obtain ⟨v20, e20⟩ := e 20 (by omega)
    constructor
    · intro hcontra
      unfold parseEstimoteNearablePacket readUInt16LE readInt8 at hcontra
      simp only [bind_eq_oor_iff, readUInt8_eq_oor_iff, readUInt8_eq_ok_iff,
        DecodeResult.pure_eq_ok, DecodeResult.ok_bind, ite_eq_iff, reduceCtorEq,
        false_and, and_false, or_false, false_or, exists_false,
        e0, e1, e2, e13, e14, e15, e16, e17, e18, e19, e20,
        Option.some.injEq, Nat.reduceAdd, exists_eq_left, exists_eq_left',
        and_true, true_and, or_self] at hcontra
    · intro hcontra
      unfold parseEstimoteTelemetryPacket readInt8 readUInt32LE at hcontra
      simp only [bind_eq_oor_iff, readUInt8_eq_oor_iff, readUInt8_eq_ok_iff,
        DecodeResult.pure_eq_ok, DecodeResult.ok_bind, ite_eq_iff, reduceCtorEq,
        false_and, and_false, or_false, false_or, exists_false,
        e0, e9, e10, e11, e12, e13, e14, e15, e16, e17, e18, e19,
        Option.some.injEq, Nat.reduceAdd, exists_eq_left, exists_eq_left',
        and_true, true_and, or_self] at hcontra
  · intro hc hf hshort
    cases hres : parseEstimoteNearablePacket data
    · rfl
    · exfalso
      unfold parseEstimoteNearablePacket at hres
      simp only [hc, hf, DecodeResult.ok_bind, bind_eq_na_iff, readUInt16LE_eq_na_iff,
        readInt8_eq_na_iff, readUInt8_eq_na_iff, readUInt8_eq_ok_iff, readInt8,
        DecodeResult.pure_eq_ok, ite_eq_iff, reduceCtorEq, false_and, and_false,
        or_false, false_or, exists_false, or_self, and_true, true_and] at hres
      simp at hres
    · exfalso
      unfold parseEstimoteNearablePacket readUInt16LE at hres
      simp only [bind_eq_ok_iff, readUInt8_eq_ok_iff, readInt8,
        DecodeResult.ok_bind, DecodeResult.pure_eq_ok, ite_eq_iff, DecodeResult.ok.injEq,
        reduceCtorEq, false_and, and_false, or_false, false_or, exists_false,
        Option.some.injEq, Nat.reduceAdd, exists_eq_left, exists_eq_left'] at hres
      obtain ⟨c, hcc, hcompany, f, hff, hframe, w, hw, b15, hb15,
        ax, hax, ay, hay, az, haz, b19, h19, b20, h20, hrec⟩ := hres
      exact absurd (get?_lt_length data 20 b20 h20) (by omega)
  · intro b0 b9 hb0 hft hver hb9 hsub hshort
    have hver' : ¬((b0 &&& 0b11110000) >>> 4 > 2) := by omega
    cases hres : parseEstimoteTelemetryPacket data
    · rfl
    · exfalso
      unfold parseEstimoteTelemetryPacket at hres
      simp only [hb0, hft, hb9, hsub, DecodeResult.ok_bind, bind_eq_na_iff,
        readUInt16LE_eq_na_iff, readInt8_eq_na_iff, readUInt8_eq_na_iff,
        readUInt32LE_eq_na_iff, readUInt8_eq_ok_iff,
        DecodeResult.pure_eq_ok, ite_eq_iff, reduceCtorEq, false_and, and_false,
        or_false, false_or, exists_false, or_self, and_true, true_and] at hres
      simp [hver'] at hres
    · exfalso
      unfold parseEstimoteTelemetryPacket at hres
      rw [hb0] at hres
      simp only [DecodeResult.ok_bind, bind_eq_ok_iff, readUInt8_eq_ok_iff, readInt8,
        readUInt32LE, DecodeResult.pure_eq_ok, ite_eq_iff, DecodeResult.ok.injEq,
        reduceCtorEq, false_and, and_false, or_false, false_or, exists_false,
        Option.some.injEq, Nat.reduceAdd, exists_eq_left, exists_eq_left',
        hft, hver, hb9, hsub] at hres
      obtain ⟨-, -, -, -, mx, hmx, my, hmy, mz, hmz, b13, hb13, b15x, hb15x,
        b14, hb14, b17, hb17, b16, hb16x, b18, hb18, err, herr, batt, hbatt, hrec⟩ := hres
      rcases herr with ⟨hv0, b19a, hg19, -⟩ | ⟨hnv0, -⟩
      · exact absurd (get?_lt_length data 19 b19a hg19) (by omega)
      · rcases hbatt with ⟨hge1, b19b, hg19, -⟩ | ⟨hnge1, -⟩
        · exact absurd (get?_lt_length data 19 b19b hg19) (by omega)
        · omega

/-- Witness for C7: the 21-byte example buffer decodes in range; its
3-byte prefix (valid discriminators) fails with out-of-range. -/
theorem decode_total_and_out_of_range_witness :
    (parseEstimoteNearablePacket nearableExample ≠ .outOfRange ∧
     parseEstimoteTelemetryPacket nearableExample ≠ .outOfRange) ∧
    parseEstimoteNearablePacket [0x5d, 0x01, 0x01] = .outOfRange :=
  ⟨(decode_total_and_out_of_range nearableExample).1 (by decide),
   (decode_total_and_out_of_range [0x5d, 0x01, 0x01]).2.1 (by decide) (by decide) (by decide)⟩
